import Mathlib

/-!
Verification of the grpc_playground todo gateway.

The repository exposes a FastAPI HTTP gateway (src/app.py) in front of a
gRPC todo backend (src/todoService/server.py).  Each HTTP handler awaits
one or more backend calls and translates the outcome into an HTTP response
or an HTTP error.  We embed the handlers as pure functions from the
backend call outcomes (a value or a raised RpcError / exception string) to
an HTTP result, and the backend servicer methods as pure functions on a
store modelled as a list of todo records.
-/

namespace GrpcPlayground

/-- The subset of grpc.StatusCode the gateway distinguishes: it only ever
compares a transport error code against NOT_FOUND. -/
inductive StatusCode where
  | ok
  | cancelled
  | unknown
  | invalidArgument
  | notFound
  | internal
  | unavailable
  | unimplemented
deriving DecidableEq, Repr

/-- A grpc.RpcError as the gateway observes it: a status code from
e.code() and a detail string from e.details(). -/
structure RpcError where
  code : StatusCode
  details : String
deriving DecidableEq, Repr

/-- A todo record: the backend row and the proto Todo message both carry
an integer id and a task string (src/todoService/models/todo_models.py). -/
structure Todo where
  id : Int
  task : String
deriving DecidableEq, Repr

/-- TodoResponse from src/todoService/models/request_models.py: the
gateway-facing record shape, fields id and task only. -/
structure TodoResponse where
  id : Int
  task : String
deriving DecidableEq, Repr

/-- TodoListResponse from request_models.py. -/
structure TodoListResponse where
  todos : List TodoResponse
deriving DecidableEq, Repr

/-- DeleteResponse from request_models.py. -/
structure DeleteResponse where
  success : Bool
  message : String
deriving DecidableEq, Repr

/-- RemoveTodoResponse proto message: a lone boolean success flag
(src/todoService/server.py RemoveTodo). -/
structure RemoveTodoResponse where
  success : Bool
deriving DecidableEq, Repr

/-- BatchResponse from request_models.py.  Note the declared type of
results: a list of TodoResponse, which pydantic enforces at construction
time. -/
structure BatchResponse where
  success_count : Nat
  failure_count : Nat
  results : List TodoResponse
deriving DecidableEq, Repr

/-- The outcome of one HTTP handler: either a typed body with an HTTP
status, or a raised HTTPException with a status code and a detail
string. -/
inductive HttpResult (α : Type) where
  | ok (status : Nat) (body : α)
  | httpError (status : Nat) (detail : String)
deriving DecidableEq, Repr

/-! ## Single-item handlers (src/app.py)

Each handler is a function of the backend call outcome.  A transport
failure is an RpcError value; success carries the backend message. -/

/-- create_todo, src/app.py lines 80 to 95: on success wrap the returned
record as a 201 TodoResponse; on any RpcError raise HTTPException 500 with
the backend detail.  There is no NOT_FOUND check in this handler. -/
def create_todo (resp : Except RpcError Todo) : HttpResult TodoResponse :=
  match resp with
  | .ok r => .ok 201 ⟨r.id, r.task⟩
  | .error e => .httpError 500 ("gRPC error: " ++ e.details)

/-- get_todo, src/app.py lines 152 to 171: a returned record equal to the
sentinel (id zero and empty task) raises 404; a transport NOT_FOUND raises
404; any other RpcError raises 500 with the backend detail. -/
def get_todo (resp : Except RpcError Todo) : HttpResult TodoResponse :=
  match resp with
  | .ok r =>
      if r.id = 0 ∧ r.task = "" then
        .httpError 404 "Todo not found"
      else
        .ok 200 ⟨r.id, r.task⟩
  | .error e =>
      if e.code = StatusCode.notFound then
        .httpError 404 "Todo not found"
      else
        .httpError 500 ("gRPC error: " ++ e.details)

/-- update_todo, src/app.py lines 173 to 196: same sentinel check and
error translation as get_todo, applied to the EditTodo response. -/
def update_todo (resp : Except RpcError Todo) : HttpResult TodoResponse :=
  match resp with
  | .ok r =>
      if r.id = 0 ∧ r.task = "" then
        .httpError 404 "Todo not found"
      else
        .ok 200 ⟨r.id, r.task⟩
  | .error e =>
      if e.code = StatusCode.notFound then
        .httpError 404 "Todo not found"
      else
        .httpError 500 ("gRPC error: " ++ e.details)

/-- list_todos, src/app.py lines 134 to 150: map every backend todo to a
TodoResponse in backend order; on any RpcError raise 500.  No NOT_FOUND
check in this handler. -/
def list_todos (resp : Except RpcError (List Todo)) : HttpResult TodoListResponse :=
  match resp with
  | .ok ts => .ok 200 ⟨ts.map (fun t => ⟨t.id, t.task⟩)⟩
  | .error e => .httpError 500 ("gRPC error: " ++ e.details)

/-- delete_todo, src/app.py lines 234 to 250: success flag false raises
404 (the HTTPException is not an RpcError, so the except clause does not
swallow it); success flag true returns a 200 confirmation; any RpcError
raises 500 with the backend detail, with no NOT_FOUND special case. -/
def delete_todo (todo_id : Int) (resp : Except RpcError RemoveTodoResponse) :
    HttpResult DeleteResponse :=
  match resp with
  | .ok r =>
      if r.success then
        .ok 200 ⟨true, "Todo " ++ toString todo_id ++ " deleted successfully"⟩
      else
        .httpError 404 "Todo not found"
  | .error e => .httpError 500 ("gRPC error: " ++ e.details)

/-! ## Batch handlers (src/app.py)

asyncio.gather with return_exceptions set returns the per-call outcomes in
input order, exceptions included as values; an exception is observed by
the loop only through its string representation, so a failed call is
embedded as an error String. -/

/-- One element appended to the results list by the create-batch loop:
either the dict with keys success, id, task, or the dict with keys
success, error (src/app.py lines 115 to 122). -/
inductive ItemDict where
  | successItem (id : Int) (task : String)
  | failureItem (error : String)
deriving DecidableEq, Repr

/-- The detail string of the pydantic ValidationError raised when a
result dict is missing the id and task fields required by TodoResponse. -/
def pydanticErrorDetail : String :=
  "validation error for BatchResponse: results item is missing the fields id and task"

/-- Pydantic validation of one results element against the declared
element type TodoResponse (request_models.py lines 27 to 30): a dict with
id and task coerces, any extra key such as success is dropped; the
failure dict has neither id nor task, so validation raises. -/
def validateTodoResponse : ItemDict → Except String TodoResponse
  | .successItem i t => .ok ⟨i, t⟩
  | .failureItem _ => .error pydanticErrorDetail

/-- Constructing BatchResponse(success_count, failure_count, results):
pydantic validates every element of results against TodoResponse and
raises a ValidationError on the first element that does not conform. -/
def mkBatchResponse (sc fc : Nat) (results : List ItemDict) :
    Except String BatchResponse :=
  match results.mapM validateTodoResponse with
  | .ok rs => .ok ⟨sc, fc, rs⟩
  | .error e => .error e

/-- The create-batch aggregation loop (src/app.py lines 110 to 122): walk
the gathered outcomes in input order, appending a failure dict and
bumping failed_count on an exception, else a success dict and
success_count. Returns (results, success_count, failed_count). -/
def createLoop : List (Except String Todo) → List ItemDict × Nat × Nat
  | [] => ([], 0, 0)
  | .ok t :: rest =>
      let r := createLoop rest
      (.successItem t.id t.task :: r.1, r.2.1 + 1, r.2.2)
  | .error e :: rest =>
      let r := createLoop rest
      (.failureItem e :: r.1, r.2.1, r.2.2 + 1)

/-- create_todos_batch, src/app.py lines 97 to 132: aggregate the
outcomes, then construct the BatchResponse (status 201).  A pydantic
ValidationError from the construction is an Exception, caught by the
blanket except clause and re-raised as HTTPException 500. -/
def create_todos_batch (responses : List (Except String Todo)) :
    HttpResult BatchResponse :=
  let r := createLoop responses
  match mkBatchResponse r.2.1 r.2.2 r.1 with
  | .ok b => .ok 201 b
  | .error e => .httpError 500 e

/-- The delete-batch counting loop (src/app.py lines 213 to 222): an
exception or a false success flag bumps failed_count, anything else bumps
success_count.  Returns (success_count, failed_count). -/
def deleteLoop : List (Except String RemoveTodoResponse) → Nat × Nat
  | [] => (0, 0)
  | .error _ :: rest =>
      let r := deleteLoop rest
      (r.1, r.2 + 1)
  | .ok x :: rest =>
      let r := deleteLoop rest
      if x.success then (r.1 + 1, r.2) else (r.1, r.2 + 1)

/-- delete_todos_batch, src/app.py lines 198 to 232: count outcomes and
return BatchResponse with an empty results list (status 200, the route
declares no status_code).  An empty results list always validates. -/
def delete_todos_batch (responses : List (Except String RemoveTodoResponse)) :
    HttpResult BatchResponse :=
  let r := deleteLoop responses
  match mkBatchResponse r.1 r.2 [] with
  | .ok b => .ok 200 b
  | .error e => .httpError 500 e

/-! ## Backend servicer (src/todoService/server.py)

The store is the list of rows of the todos table in select order; the
primary-key lookup session.get is modelled as the first record with the
requested id. -/

/-- session.get(Todo, id): primary-key lookup, the first record whose id
matches. -/
def sessionGet (store : List Todo) (i : Int) : Option Todo :=
  store.find? (fun t => t.id == i)

/-- session.delete of the row fetched by primary key: remove the first
record with the given id, keep everything else in order. -/
def removeFirst (store : List Todo) (i : Int) : List Todo :=
  match store with
  | [] => []
  | t :: rest => if t.id == i then rest else t :: removeFirst rest i

/-- RemoveTodo, src/todoService/server.py lines 58 to 65: fetch by id; if
absent reply success false and leave the store alone; else delete that
row and reply success true. -/
def RemoveTodoOp (store : List Todo) (i : Int) : List Todo × RemoveTodoResponse :=
  match sessionGet store i with
  | none => (store, ⟨false⟩)
  | some _ => (removeFirst store i, ⟨true⟩)

/-- ListTodos, src/todoService/server.py lines 48 to 56: read all rows in
select order and convert each to a proto Todo with the same id and
task. -/
def ListTodosOp (store : List Todo) : List Todo :=
  store.map (fun t => ⟨t.id, t.task⟩)

/-- Modelled from the spec: the GetTodo RPC is referenced by the gateway
but has no implementation in src/todoService/server.py; the spec gives
its contract as GetTodo(id) returning the Todo, with the sentinel record
of id zero and empty task when the id is absent.  The call reads the
store and never mutates it. -/
def GetTodoOp (store : List Todo) (i : Int) : List Todo × Todo :=
  match sessionGet store i with
  | some t => (store, ⟨t.id, t.task⟩)
  | none => (store, ⟨0, ""⟩)

/-! ## End-to-end pipelines: gateway handler fed by the backend op. -/

/-- GET /todos/id against a backend store: run the backend get, feed the
record to the gateway handler; the resulting store is returned alongside
the HTTP outcome. -/
def get_endpoint (store : List Todo) (i : Int) :
    List Todo × HttpResult TodoResponse :=
  let p := GetTodoOp store i
  (p.1, get_todo (Except.ok p.2))

/-- DELETE /todos/id against a backend store. -/
def delete_endpoint (store : List Todo) (i : Int) :
    List Todo × HttpResult DeleteResponse :=
  let p := RemoveTodoOp store i
  (p.1, delete_todo i (Except.ok p.2))

/-- GET /todos against a backend store. -/
def list_endpoint (store : List Todo) : HttpResult TodoListResponse :=
  list_todos (Except.ok (ListTodosOp store))

end GrpcPlayground

namespace GrpcPlayground

/-! ## Helper lemmas -/

theorem createLoop_counts (rs : List (Except String Todo)) :
    (createLoop rs).2.1 + (createLoop rs).2.2 = rs.length := by
  induction rs with
  | nil => rfl
  | cons r rest ih =>
    cases r with
    | ok t => simp [createLoop]; omega
    | error e => simp [createLoop]; omega

theorem deleteLoop_counts (rs : List (Except String RemoveTodoResponse)) :
    (deleteLoop rs).1 + (deleteLoop rs).2 = rs.length := by
  induction rs with
  | nil => rfl
  | cons r rest ih =>
    cases r with
    | ok x => cases hx : x.success <;> simp [deleteLoop, hx] <;> omega
    | error e => simp [deleteLoop]; omega

theorem mkBatchResponse_counts (sc fc : Nat) (items : List ItemDict) (b : BatchResponse)
    (h : mkBatchResponse sc fc items = Except.ok b) :
    b.success_count = sc ∧ b.failure_count = fc := by
  unfold mkBatchResponse at h
  split at h
  · cases h; exact ⟨rfl, rfl⟩
  · exact Except.noConfusion h

theorem deleteLoop_spec (rs : List (Except String RemoveTodoResponse)) :
    deleteLoop rs =
      (rs.countP (fun r => match r with | .ok x => x.success | .error _ => false),
       rs.countP (fun r => match r with | .ok x => !x.success | .error _ => true)) := by
  induction rs with
  | nil => rfl
  | cons r rest ih =>
    cases r with
    | ok x => cases hx : x.success <;> simp [deleteLoop, List.countP_cons, ih, hx]
    | error e => simp [deleteLoop, List.countP_cons, ih]

theorem removeAt_first (l₁ l₂ : List Todo) (t : Todo) (i : Int)
    (ht : t.id = i) (hl : ∀ u ∈ l₁, u.id ≠ i) :
    sessionGet (l₁ ++ t :: l₂) i = some t ∧ removeFirst (l₁ ++ t :: l₂) i = l₁ ++ l₂ := by
  induction l₁ with
  | nil =>
    refine ⟨?_, ?_⟩
    · simp [sessionGet, List.find?_cons_of_pos, ht]
    · simp [removeFirst, ht]
  | cons u rest ih =>
    have hu : u.id ≠ i := hl u (by simp)
    have hrest : ∀ v ∈ rest, v.id ≠ i := fun v hv => hl v (by simp [hv])
    obtain ⟨h1, h2⟩ := ih hrest
    refine ⟨?_, ?_⟩
    · show List.find? _ (u :: (rest ++ t :: l₂)) = some t
      rw [List.find?_cons_of_neg]
      · exact h1
      · simp [hu]
    · show removeFirst (u :: (rest ++ t :: l₂)) i = u :: (rest ++ l₂)
      simp [removeFirst, hu, h2]

end GrpcPlayground

namespace GrpcPlayground

/-! ## Claim theorems -/

/-- Claim C1 (code bug evaluation): a create-batch in which one backend
AddTodo call raised and the other succeeded.  The aggregation loop does
contain the failure to its own slot (first conjunct), but constructing
the BatchResponse then raises a pydantic ValidationError because the
failure dict lacks the id and task fields demanded by the declared
results element type TodoResponse; the blanket except clause converts it
into a request-level HTTP 500, so the batch response is not 201 as the
claim states. -/
theorem claim_C1_batch_item_failure_becomes_http_500 :
    createLoop [Except.ok ⟨1, "task one"⟩, Except.error "rpc failure"] =
      ([ItemDict.successItem 1 "task one", ItemDict.failureItem "rpc failure"], 1, 1) ∧
    create_todos_batch [Except.ok ⟨1, "task one"⟩, Except.error "rpc failure"] =
      HttpResult.httpError 500 pydanticErrorDetail ∧
    create_todos_batch [Except.ok ⟨1, "task one"⟩, Except.error "rpc failure"] ≠
      HttpResult.ok 201 ⟨1, 1,
        [⟨1, "task one"⟩]⟩ :=
  ⟨rfl, rfl, by decide⟩

/-- Claim C2 (code bug evaluation): in the all-success case the response
preserves length and input order, but every per-item result is coerced to
the bare TodoResponse shape of id and task, dropping the success key; and
as soon as one item fails, the failure dict fails validation and the
whole request becomes HTTP 500, so no per-item result of the claimed
shape is ever produced. -/
theorem claim_C2_batch_results_shape :
    create_todos_batch [Except.ok ⟨1, "a"⟩, Except.ok ⟨2, "b"⟩] =
      HttpResult.ok 201 ⟨2, 0, [⟨1, "a"⟩, ⟨2, "b"⟩]⟩ ∧
    validateTodoResponse (ItemDict.successItem 1 "a") = Except.ok ⟨1, "a"⟩ ∧
    validateTodoResponse (ItemDict.failureItem "fail") =
      Except.error pydanticErrorDetail ∧
    create_todos_batch [Except.ok ⟨1, "a"⟩, Except.error "fail"] =
      HttpResult.httpError 500 pydanticErrorDetail :=
  ⟨rfl, rfl, rfl, rfl⟩

/-- Claim C3: whenever a batch handler returns a BatchResponse body, its
success count plus its failure count equals the number of inputs, for
create-batch and delete-batch alike. -/
theorem claim_C3_counts_sum_to_batch_size
    (crs : List (Except String Todo))
    (drs : List (Except String RemoveTodoResponse))
    (s₁ s₂ : Nat) (b₁ b₂ : BatchResponse)
    (h₁ : create_todos_batch crs = HttpResult.ok s₁ b₁)
    (h₂ : delete_todos_batch drs = HttpResult.ok s₂ b₂) :
    b₁.success_count + b₁.failure_count = crs.length ∧
    b₂.success_count + b₂.failure_count = drs.length := by
  constructor
  · simp only [create_todos_batch] at h₁
    split at h₁
    · rename_i b hm
      injection h₁ with hs hb
      subst hb
      have hc := mkBatchResponse_counts _ _ _ _ hm
      rw [hc.1, hc.2]
      exact createLoop_counts crs
    · exact HttpResult.noConfusion h₁
  · simp only [delete_todos_batch] at h₂
    split at h₂
    · rename_i b hm
      injection h₂ with hs hb
      subst hb
      have hc := mkBatchResponse_counts _ _ _ _ hm
      rw [hc.1, hc.2]
      exact deleteLoop_counts drs
    · exact HttpResult.noConfusion h₂

/-- Witness for C3 at concrete inputs: one create-batch of two outcomes
and one delete-batch of three outcomes. -/
theorem claim_C3_counts_sum_witness :
    create_todos_batch [Except.ok ⟨1, "a"⟩, Except.ok ⟨2, "b"⟩] =
      HttpResult.ok 201 ⟨2, 0, [⟨1, "a"⟩, ⟨2, "b"⟩]⟩ ∧
    delete_todos_batch [Except.ok ⟨true⟩, Except.ok ⟨false⟩, Except.error "x"] =
      HttpResult.ok 200 ⟨1, 2, []⟩ ∧
    (2 : Nat) + 0 = 2 ∧ (1 : Nat) + 2 = 3 :=
  ⟨rfl, rfl,
    (claim_C3_counts_sum_to_batch_size
      [Except.ok ⟨1, "a"⟩, Except.ok ⟨2, "b"⟩]
      [Except.ok ⟨true⟩, Except.ok ⟨false⟩, Except.error "x"]
      201 200 ⟨2, 0, [⟨1, "a"⟩, ⟨2, "b"⟩]⟩ ⟨1, 2, []⟩ rfl rfl).1,
    (claim_C3_counts_sum_to_batch_size
      [Except.ok ⟨1, "a"⟩, Except.ok ⟨2, "b"⟩]
      [Except.ok ⟨true⟩, Except.ok ⟨false⟩, Except.error "x"]
      201 200 ⟨2, 0, [⟨1, "a"⟩, ⟨2, "b"⟩]⟩ ⟨1, 2, []⟩ rfl rfl).2⟩

/-- Claim C4: the sentinel record of id zero and empty task, and a
transport NOT_FOUND, each make GET and PUT on a single todo answer HTTP
404 with detail Todo not found; and on any returned record the handlers
answer 404 exactly on the sentinel and otherwise echo the record, so the
sentinel is never surfaced as a real record. -/
theorem claim_C4_sentinel_means_not_found (r : Todo) (d : String) :
    get_todo (Except.ok ⟨0, ""⟩) = HttpResult.httpError 404 "Todo not found" ∧
    update_todo (Except.ok ⟨0, ""⟩) = HttpResult.httpError 404 "Todo not found" ∧
    get_todo (Except.error ⟨StatusCode.notFound, d⟩) =
      HttpResult.httpError 404 "Todo not found" ∧
    update_todo (Except.error ⟨StatusCode.notFound, d⟩) =
      HttpResult.httpError 404 "Todo not found" ∧
    get_todo (Except.ok r) =
      (if r.id = 0 ∧ r.task = "" then HttpResult.httpError 404 "Todo not found"
       else HttpResult.ok 200 ⟨r.id, r.task⟩) ∧
    update_todo (Except.ok r) =
      (if r.id = 0 ∧ r.task = "" then HttpResult.httpError 404 "Todo not found"
       else HttpResult.ok 200 ⟨r.id, r.task⟩) :=
  ⟨rfl, rfl, rfl, rfl, rfl, rfl⟩

end GrpcPlayground

namespace GrpcPlayground

/-- Counterexample to claim C5: the single-item delete handler translates
a transport NOT_FOUND failure into HTTP 500 carrying the backend detail,
not into the HTTP 404 the claim demands of every single-item handler. -/
theorem claim_C5_counterexample :
    delete_todo 7 (Except.error ⟨StatusCode.notFound, "missing"⟩) =
      HttpResult.httpError 500 "gRPC error: missing" ∧
    delete_todo 7 (Except.error ⟨StatusCode.notFound, "missing"⟩) ≠
      HttpResult.httpError 404 "Todo not found" :=
  ⟨rfl, by decide⟩

/-- Claim C5 as amended: only the get and update handlers translate a
transport NOT_FOUND into HTTP 404 with detail Todo not found; every other
transport failure there, and every transport failure whatsoever in the
create, list and delete handlers, NOT_FOUND included, becomes HTTP 500
whose detail carries the backend-provided detail string. -/
theorem claim_C5_transport_error_translation (i : Int) (d₁ d₂ : String)
    (c : StatusCode) (hc : c ≠ StatusCode.notFound) :
    get_todo (Except.error ⟨StatusCode.notFound, d₁⟩) =
      HttpResult.httpError 404 "Todo not found" ∧
    update_todo (Except.error ⟨StatusCode.notFound, d₁⟩) =
      HttpResult.httpError 404 "Todo not found" ∧
    get_todo (Except.error ⟨c, d₂⟩) =
      HttpResult.httpError 500 ("gRPC error: " ++ d₂) ∧
    update_todo (Except.error ⟨c, d₂⟩) =
      HttpResult.httpError 500 ("gRPC error: " ++ d₂) ∧
    create_todo (Except.error ⟨c, d₂⟩) =
      HttpResult.httpError 500 ("gRPC error: " ++ d₂) ∧
    create_todo (Except.error ⟨StatusCode.notFound, d₁⟩) =
      HttpResult.httpError 500 ("gRPC error: " ++ d₁) ∧
    list_todos (Except.error ⟨c, d₂⟩) =
      HttpResult.httpError 500 ("gRPC error: " ++ d₂) ∧
    list_todos (Except.error ⟨StatusCode.notFound, d₁⟩) =
      HttpResult.httpError 500 ("gRPC error: " ++ d₁) ∧
    delete_todo i (Except.error ⟨c, d₂⟩) =
      HttpResult.httpError 500 ("gRPC error: " ++ d₂) ∧
    delete_todo i (Except.error ⟨StatusCode.notFound, d₁⟩) =
      HttpResult.httpError 500 ("gRPC error: " ++ d₁) := by
  refine ⟨rfl, rfl, ?_, ?_, rfl, rfl, rfl, rfl, rfl, rfl⟩
  · simp [get_todo, hc]
  · simp [update_todo, hc]

/-- Witness for the amended C5 at a concrete internal error and a
concrete NOT_FOUND error. -/
theorem claim_C5_transport_error_translation_witness :
    StatusCode.internal ≠ StatusCode.notFound ∧
    get_todo (Except.error ⟨StatusCode.internal, "boom"⟩) =
      HttpResult.httpError 500 ("gRPC error: " ++ "boom") ∧
    delete_todo 3 (Except.error ⟨StatusCode.notFound, "gone"⟩) =
      HttpResult.httpError 500 ("gRPC error: " ++ "gone") :=
  ⟨by decide,
    (claim_C5_transport_error_translation 3 "gone" "boom"
      StatusCode.internal (by decide)).2.2.1,
    (claim_C5_transport_error_translation 3 "gone" "boom"
      StatusCode.internal (by decide)).2.2.2.2.2.2.2.2.2⟩

/-- Claim C6: on DELETE of a single id, an absent id makes the backend
reply success false and the gateway answer HTTP 404 with detail Todo not
found, leaving the store untouched; a present id makes the backend reply
success true and the gateway answer HTTP 200 with success true and the
confirmation message. -/
theorem claim_C6_delete_single (s₁ s₂ : List Todo) (i₁ i₂ : Int) (t : Todo)
    (h₁ : sessionGet s₁ i₁ = none) (h₂ : sessionGet s₂ i₂ = some t) :
    delete_endpoint s₁ i₁ = (s₁, HttpResult.httpError 404 "Todo not found") ∧
    (delete_endpoint s₂ i₂).2 =
      HttpResult.ok 200 ⟨true, "Todo " ++ toString i₂ ++ " deleted successfully"⟩ ∧
    delete_todo i₁ (Except.ok ⟨false⟩) = HttpResult.httpError 404 "Todo not found" ∧
    delete_todo i₂ (Except.ok ⟨true⟩) =
      HttpResult.ok 200 ⟨true, "Todo " ++ toString i₂ ++ " deleted successfully"⟩ := by
  refine ⟨?_, ?_, rfl, rfl⟩
  · simp [delete_endpoint, RemoveTodoOp, h₁, delete_todo]
  · simp [delete_endpoint, RemoveTodoOp, h₂, delete_todo]

/-- Witness for C6: deleting id 1 from an empty store answers 404 and
deleting id 2 from the store holding exactly todo 2 answers 200. -/
theorem claim_C6_delete_single_witness :
    sessionGet [] 1 = none ∧
    sessionGet [(⟨2, "b"⟩ : Todo)] 2 = some ⟨2, "b"⟩ ∧
    delete_endpoint [] 1 = ([], HttpResult.httpError 404 "Todo not found") ∧
    (delete_endpoint [(⟨2, "b"⟩ : Todo)] 2).2 =
      HttpResult.ok 200 ⟨true, "Todo " ++ toString (2 : Int) ++ " deleted successfully"⟩ :=
  ⟨rfl, rfl,
    (claim_C6_delete_single [] [⟨2, "b"⟩] 1 2 ⟨2, "b"⟩ rfl rfl).1,
    (claim_C6_delete_single [] [⟨2, "b"⟩] 1 2 ⟨2, "b"⟩ rfl rfl).2.1⟩

/-- Claim C7: every delete-batch returns HTTP 200 with an empty results
list; the failure count is exactly the number of outcomes that raised or
carried success false and the success count the number of remaining
outcomes; in particular the batch over ids 1 and 999 against the store
holding only todo 1 yields one success, one failure and no results. -/
theorem claim_C7_delete_batch (rs : List (Except String RemoveTodoResponse)) :
    delete_todos_batch rs = HttpResult.ok 200
      ⟨rs.countP (fun r => match r with | .ok x => x.success | .error _ => false),
       rs.countP (fun r => match r with | .ok x => !x.success | .error _ => true),
       []⟩ ∧
    delete_todos_batch
        [Except.ok (RemoveTodoOp [⟨1, "pay bills"⟩] 1).2,
         Except.ok (RemoveTodoOp (RemoveTodoOp [⟨1, "pay bills"⟩] 1).1 999).2] =
      HttpResult.ok 200 ⟨1, 1, []⟩ := by
  constructor
  · have h : delete_todos_batch rs =
        HttpResult.ok 200 ⟨(deleteLoop rs).1, (deleteLoop rs).2, []⟩ := rfl
    rw [h, deleteLoop_spec]
  · rfl

end GrpcPlayground

namespace GrpcPlayground

/-- Claim C8: the list endpoint returns exactly the collection the
backend handed over, each element mapped to its id and task, in backend
order; composed with the servicer, the response todos are exactly the
store rows in store order, so nothing is sorted, filtered, added or
removed. -/
theorem claim_C8_list_is_exact (ts : List Todo) (store : List Todo) :
    list_todos (Except.ok ts) =
      HttpResult.ok 200 ⟨ts.map (fun t => ⟨t.id, t.task⟩)⟩ ∧
    (ts.map (fun t => (⟨t.id, t.task⟩ : TodoResponse))).length = ts.length ∧
    list_endpoint store =
      HttpResult.ok 200 ⟨store.map (fun t => ⟨t.id, t.task⟩)⟩ := by
  refine ⟨rfl, by simp, ?_⟩
  simp [list_endpoint, ListTodosOp, list_todos, Function.comp]

/-- Claim C9: the get endpoint leaves the backend store unchanged, and a
second call on the resulting store returns the identical response, so
GET twice with no intervening mutation is idempotent.  The backend
GetTodo call is modelled from the spec, the servicer not implementing
it. -/
theorem claim_C9_get_idempotent (store : List Todo) (i : Int) :
    (get_endpoint store i).1 = store ∧
    (get_endpoint (get_endpoint store i).1 i).2 = (get_endpoint store i).2 := by
  have hstore : (get_endpoint store i).1 = store := by
    unfold get_endpoint GetTodoOp
    cases h : sessionGet store i <;> simp
  exact ⟨hstore, by rw [hstore]⟩

/-- Claim C10: the backend RemoveTodo on an absent id replies success
false and returns the store unchanged; on a store splitting as a left
part free of the id, the first record bearing the id, and a right part,
it replies success true and returns exactly the store with that one
record removed, every other record kept in place. -/
theorem claim_C10_remove_todo_frame (s₁ : List Todo) (i₁ : Int)
    (h₁ : sessionGet s₁ i₁ = none)
    (l₁ l₂ : List Todo) (t : Todo) (i₂ : Int)
    (ht : t.id = i₂) (hl : ∀ u ∈ l₁, u.id ≠ i₂) :
    RemoveTodoOp s₁ i₁ = (s₁, ⟨false⟩) ∧
    RemoveTodoOp (l₁ ++ t :: l₂) i₂ = (l₁ ++ l₂, ⟨true⟩) := by
  constructor
  · unfold RemoveTodoOp
    rw [h₁]
  · obtain ⟨hf, hr⟩ := removeAt_first l₁ l₂ t i₂ ht hl
    unfold RemoveTodoOp
    rw [hf, hr]

/-- Witness for C10: removing id 2 from a store without it leaves the
store as it was with success false; removing id 2 from the store holding
todos 1, 2 and 3 removes exactly todo 2 with success true. -/
theorem claim_C10_remove_todo_frame_witness :
    sessionGet [(⟨1, "a"⟩ : Todo)] 2 = none ∧
    (∀ u ∈ [(⟨1, "a"⟩ : Todo)], u.id ≠ 2) ∧
    RemoveTodoOp [(⟨1, "a"⟩ : Todo)] 2 = ([⟨1, "a"⟩], ⟨false⟩) ∧
    RemoveTodoOp [(⟨1, "a"⟩ : Todo), ⟨2, "b"⟩, ⟨3, "c"⟩] 2 =
      ([⟨1, "a"⟩, ⟨3, "c"⟩], ⟨true⟩) :=
  ⟨rfl, by decide,
    (claim_C10_remove_todo_frame [⟨1, "a"⟩] 2 rfl [⟨1, "a"⟩] [⟨3, "c"⟩]
      ⟨2, "b"⟩ 2 rfl (by decide)).1,
    (claim_C10_remove_todo_frame [⟨1, "a"⟩] 2 rfl [⟨1, "a"⟩] [⟨3, "c"⟩]
      ⟨2, "b"⟩ 2 rfl (by decide)).2⟩

end GrpcPlayground
